import Mathlib

/-!
Shallow embedding of `smb2mv.c` (a server-side SMB2 move tool).

The program is a linear sequence of system calls with goto-based cleanup.
We model one run as a pure function of an `Env` recording the outcome the
operating system would give to each system call the program can make
(open of the source, stat of the destination, the two possible creating
opens, the two fstatfs queries, the copychunk ioctl, unlink, both closes).
The run produces an exit value, a trace of system-call events in program
order, and the list of stderr messages.

One deliberate point of the model: the C local `ret` in `main`
(line 151, `int src_fd, dst_fd, ret;`) is declared without an
initializer.  Two paths reach `return ret` without ever assigning it:
the `argc != 3` usage path (lines 153-156 jump to `err_out`) and the
unlink-failure path (lines 184-187 jump to `err_dst_close` without
setting `ret`).  Reading such an indeterminate value is modelled by the
field `retInit : Int` of the environment: the exit value on those paths
is whatever garbage the stack held, i.e. an arbitrary `Int`.
-/

set_option maxHeartbeats 1000000

namespace Smb2mv

/-- `CIFS_SUPER_MAGIC` from src/smb2mv.c line 28. -/
def CIFS_SUPER_MAGIC : Nat := 0xFF534D42

/-- `SMB2_SUPER_MAGIC` from src/smb2mv.c line 31. -/
def SMB2_SUPER_MAGIC : Nat := 0xFE534D42

/-- The subset of `open(2)` flags the program uses. -/
structure OpenFlags where
  rdwr : Bool
  wronly : Bool
  creat : Bool
  excl : Bool
deriving DecidableEq, Repr

/-- Flags of `open(src_file, O_RDWR)` (line 161). -/
def oRdwrFlags : OpenFlags := { rdwr := true, wronly := false, creat := false, excl := false }

/-- Flags of `open(dst, O_CREAT | O_WRONLY, 0644)` (lines 116 and 131): note no `O_EXCL`. -/
def oCreatWronlyFlags : OpenFlags := { rdwr := false, wronly := true, creat := true, excl := false }

/-- A system call performed by the program, in program order.
For `openCall`, `result` is `some fd` on success, `none` on failure, and
`mode` is the third argument when one is passed. -/
inductive Event where
  | openCall (path : String) (flags : OpenFlags) (mode : Option Nat) (result : Option Nat)
  | statCall (path : String)
  | ioctlCopychunk (dstFd srcFd : Nat) (ok : Bool)
  | unlinkCall (path : String) (ok : Bool)
  | closeCall (fd : Nat) (ok : Bool)
deriving DecidableEq, Repr

/-- One constructor per `fprintf(stderr, ...)` in the source, carrying the
path substituted for `%s` where the format has one.  The `%m` system error
text is abstracted away. -/
inductive Msg where
  | usage
  | failedToOpen (p : String)
  | failedToCreate (p : String)
  | refusingToOverwrite (p : String)
  | statSrcFsFailed
  | srcFsNotCifs
  | statDstFsFailed
  | dstFsNotCifs
  | copychunkFailed
  | unlinkFailed
  | closeDstFailed
  | closeSrcFailed
deriving DecidableEq, Repr

/-- Errno distinction the program makes after `stat` (line 115): only
`ENOENT` versus anything else. -/
inductive Errno where
  | enoent
  | eother
deriving DecidableEq, Repr

/-- Outcome of `stat(dst, &st)`: success carries whether
`(st.st_mode & S_IFMT) == S_IFDIR`. -/
inductive StatRes where
  | ok (isDir : Bool)
  | err (e : Errno)
deriving DecidableEq, Repr

/-- The operating-system side of one run: the outcome of each system call
the program can make.  `retInit` is the indeterminate initial value of the
uninitialized C local `ret` in `main`. -/
structure Env where
  openSrcRes : Option Nat
  statDstRes : StatRes
  openDstRes : Option Nat
  openDstDirRes : Option Nat
  ftypeSrc : Option Nat
  ftypeDst : Option Nat
  cloneRet : Int
  unlinkOk : Bool
  closeDstOk : Bool
  closeSrcOk : Bool
  retInit : Int
deriving DecidableEq, Repr

/-- Result of running a piece of the program: return value, system-call
trace, stderr messages. -/
structure Out (α : Type) where
  ret : α
  evs : List Event
  msgs : List Msg
deriving DecidableEq, Repr

/-- POSIX `basename(3)` from libgen.h as glibc implements the POSIX
variant: `""` gives `"."`, a string of only slashes gives `"/"`,
otherwise trailing slashes are stripped and the last component returned. -/
def basename (s : String) : String :=
  if s.isEmpty then "." else
    let noTrail := (s.data.reverse.dropWhile (fun c => c == '/')).reverse
    if noTrail.isEmpty then "/"
    else String.mk ((noTrail.reverse.takeWhile (fun c => c != '/')).reverse)

/-- `clone_file_cifs` (lines 65-76): issue the copychunk ioctl, return 0 on
success and -1 (with a message) on any nonzero ioctl return. -/
def clone_file_cifs (ioctlRet : Int) : Int × List Msg :=
  if ioctlRet = 0 then (0, []) else (-1, [Msg.copychunkFailed])

/-- `check_is_cifs` (lines 78-106): fstatfs the source fd, require its
`f_type` to be one of the two magics, then the same for the destination fd.
`none` models fstatfs failure; `some t` a successful query returning `t`. -/
def isCifsMagic (t : Nat) : Bool :=
  t == CIFS_SUPER_MAGIC || t == SMB2_SUPER_MAGIC

def check_is_cifs (tsrc tdst : Option Nat) : Bool × List Msg :=
  match tsrc with
  | none => (false, [Msg.statSrcFsFailed])
  | some t =>
    if isCifsMagic t then
      match tdst with
      | none => (false, [Msg.statDstFsFailed])
      | some t2 =>
        if isCifsMagic t2 then (true, [])
        else (false, [Msg.dstFsNotCifs])
    else (false, [Msg.srcFsNotCifs])

/-- `open_dest` (lines 108-146).  Returns `some fd` for a valid destination
handle, `none` for the C return value -1.  Branches:
stat fails with ENOENT: `open(dst, O_CREAT|O_WRONLY, 0644)`, message on
failure; stat fails otherwise: same failure message, no open; dst is a
directory: `open(dst/basename(src), O_CREAT|O_WRONLY, 0644)`; dst exists
and is not a directory: refuse to overwrite, no open. -/
def open_dest (env : Env) (src dst : String) : Out (Option Nat) :=
  let evStat := Event.statCall dst
  match env.statDstRes with
  | StatRes.err Errno.enoent =>
    match env.openDstRes with
    | some fd =>
      ⟨some fd, [evStat, Event.openCall dst oCreatWronlyFlags (some 0o644) (some fd)], []⟩
    | none =>
      ⟨none, [evStat, Event.openCall dst oCreatWronlyFlags (some 0o644) none],
        [Msg.failedToCreate dst]⟩
  | StatRes.err Errno.eother =>
    ⟨none, [evStat], [Msg.failedToCreate dst]⟩
  | StatRes.ok true =>
    let nd := dst ++ "/" ++ basename src
    match env.openDstDirRes with
    | some fd =>
      ⟨some fd, [evStat, Event.openCall nd oCreatWronlyFlags (some 0o644) (some fd)], []⟩
    | none =>
      ⟨none, [evStat, Event.openCall nd oCreatWronlyFlags (some 0o644) none],
        [Msg.failedToCreate nd]⟩
  | StatRes.ok false =>
    ⟨none, [evStat], [Msg.refusingToOverwrite dst]⟩

/-- The `err_src_close` tail of `main` (lines 197-201): close the source
fd; on failure force the exit value to 1 and report. -/
def closeSrcPhase (env : Env) (srcFd : Nat) (r : Int) : Out Int :=
  if env.closeSrcOk then ⟨r, [Event.closeCall srcFd true], []⟩
  else ⟨1, [Event.closeCall srcFd false], [Msg.closeSrcFailed]⟩

/-- The `err_dst_close` step of `main` (lines 191-195): close the
destination fd; on failure force the exit value to 1 and report. -/
def closeDstPhase (env : Env) (dstFd : Nat) (r : Int) : Out Int :=
  if env.closeDstOk then ⟨r, [Event.closeCall dstFd true], []⟩
  else ⟨1, [Event.closeCall dstFd false], [Msg.closeDstFailed]⟩

/-- `err_dst_close` followed by falling through to `err_src_close`. -/
def closeBothPhase (env : Env) (srcFd dstFd : Nat) (r : Int) : Out Int :=
  let d := closeDstPhase env dstFd r
  let s := closeSrcPhase env srcFd d.ret
  ⟨s.ret, d.evs ++ s.evs, d.msgs ++ s.msgs⟩

/-- `main` (lines 148-207).  `args` is `argv[1:]`, so `argc != 3` is
`args.length != 2`.  On the usage path and on the unlink-failure path the
exit value is the uninitialized `ret`, modelled by `env.retInit`. -/
def mainRun (env : Env) (args : List String) : Out Int :=
  match args with
  | [src, dst] =>
    match env.openSrcRes with
    | none =>
      ⟨1, [Event.openCall src oRdwrFlags none none], [Msg.failedToOpen src]⟩
    | some srcFd =>
      let e0 := Event.openCall src oRdwrFlags none (some srcFd)
      let od := open_dest env src dst
      match od.ret with
      | none =>
        let c := closeSrcPhase env srcFd 1
        ⟨c.ret, e0 :: od.evs ++ c.evs, od.msgs ++ c.msgs⟩
      | some dstFd =>
        let chk := check_is_cifs env.ftypeSrc env.ftypeDst
        if chk.1 then
          let cl := clone_file_cifs env.cloneRet
          let eClone := Event.ioctlCopychunk dstFd srcFd (env.cloneRet == 0)
          if cl.1 = 0 then
            let eU := Event.unlinkCall src env.unlinkOk
            if env.unlinkOk then
              let c := closeBothPhase env srcFd dstFd 0
              ⟨c.ret, e0 :: od.evs ++ [eClone, eU] ++ c.evs,
                od.msgs ++ chk.2 ++ cl.2 ++ c.msgs⟩
            else
              let c := closeBothPhase env srcFd dstFd env.retInit
              ⟨c.ret, e0 :: od.evs ++ [eClone, eU] ++ c.evs,
                od.msgs ++ chk.2 ++ cl.2 ++ [Msg.unlinkFailed] ++ c.msgs⟩
          else
            let c := closeBothPhase env srcFd dstFd 1
            ⟨c.ret, e0 :: od.evs ++ [eClone] ++ c.evs,
              od.msgs ++ chk.2 ++ cl.2 ++ c.msgs⟩
        else
          let c := closeBothPhase env srcFd dstFd 1
          ⟨c.ret, e0 :: od.evs ++ c.evs, od.msgs ++ chk.2 ++ c.msgs⟩
  | _ => ⟨env.retInit, [], [Msg.usage]⟩

/-- Recognizer for `unlink` events in a trace. -/
def isUnlinkEv : Event → Bool
  | Event.unlinkCall _ _ => true
  | _ => false

/-- Recognizer for copychunk-ioctl events in a trace. -/
def isCloneEv : Event → Bool
  | Event.ioctlCopychunk _ _ _ => true
  | _ => false

/-- Recognizer for a successful creating open (`O_CREAT` set, fd
returned): the trace witnesses that a file now exists at that path. -/
def isCreateEv : Event → Bool
  | Event.openCall _ f _ r => f.creat && r.isSome
  | _ => false

/-- `unlinkOnlyAfterClone l seen` holds when every `unlink` event of `l`
is preceded by a successful copychunk ioctl (`seen` carries whether one
was already observed). -/
def unlinkOnlyAfterClone : List Event → Bool → Bool
  | [], _ => true
  | Event.ioctlCopychunk _ _ ok :: rest, seen => unlinkOnlyAfterClone rest (seen || ok)
  | Event.unlinkCall _ _ :: rest, seen => seen && unlinkOnlyAfterClone rest seen
  | _ :: rest, seen => unlinkOnlyAfterClone rest seen

/-- A trace with neither unlink nor copychunk events. -/
def noUC (l : List Event) : Bool := l.all fun e => !isUnlinkEv e && !isCloneEv e

theorem closeSrcPhase_ret (env : Env) (fd : Nat) (r : Int) :
    (closeSrcPhase env fd r).ret = if env.closeSrcOk then r else 1 := by
  unfold closeSrcPhase; split <;> simp_all

theorem closeSrcPhase_evs (env : Env) (fd : Nat) (r : Int) :
    (closeSrcPhase env fd r).evs = [Event.closeCall fd env.closeSrcOk] := by
  unfold closeSrcPhase; split <;> simp_all

theorem closeDstPhase_ret (env : Env) (fd : Nat) (r : Int) :
    (closeDstPhase env fd r).ret = if env.closeDstOk then r else 1 := by
  unfold closeDstPhase; split <;> simp_all

theorem closeDstPhase_evs (env : Env) (fd : Nat) (r : Int) :
    (closeDstPhase env fd r).evs = [Event.closeCall fd env.closeDstOk] := by
  unfold closeDstPhase; split <;> simp_all

theorem closeBothPhase_ret (env : Env) (s d : Nat) (r : Int) :
    (closeBothPhase env s d r).ret =
      if env.closeSrcOk then (if env.closeDstOk then r else 1) else 1 := by
  unfold closeBothPhase
  simp [closeSrcPhase_ret, closeDstPhase_ret]

theorem closeBothPhase_evs (env : Env) (s d : Nat) (r : Int) :
    (closeBothPhase env s d r).evs =
      [Event.closeCall d env.closeDstOk, Event.closeCall s env.closeSrcOk] := by
  unfold closeBothPhase
  simp [closeSrcPhase_evs, closeDstPhase_evs]

theorem noUC_openDest (env : Env) (s d : String) :
    noUC (open_dest env s d).evs = true := by
  rcases hst : env.statDstRes with b | e
  · cases b <;> rcases ho : env.openDstDirRes with _ | fd <;>
      simp [open_dest, hst, ho, noUC, isUnlinkEv, isCloneEv]
  · cases e <;> rcases ho : env.openDstRes with _ | fd <;>
      simp [open_dest, hst, ho, noUC, isUnlinkEv, isCloneEv]

theorem uOAC_cons_open (p : String) (f : OpenFlags) (m r : Option Nat)
    (l : List Event) (seen : Bool) :
    unlinkOnlyAfterClone (Event.openCall p f m r :: l) seen =
      unlinkOnlyAfterClone l seen := rfl

theorem uOAC_cons_stat (p : String) (l : List Event) (seen : Bool) :
    unlinkOnlyAfterClone (Event.statCall p :: l) seen =
      unlinkOnlyAfterClone l seen := rfl

theorem uOAC_cons_close (fd : Nat) (ok : Bool) (l : List Event) (seen : Bool) :
    unlinkOnlyAfterClone (Event.closeCall fd ok :: l) seen =
      unlinkOnlyAfterClone l seen := rfl

theorem uOAC_cons_ioctl (d s : Nat) (ok : Bool) (l : List Event) (seen : Bool) :
    unlinkOnlyAfterClone (Event.ioctlCopychunk d s ok :: l) seen =
      unlinkOnlyAfterClone l (seen || ok) := rfl

theorem uOAC_cons_unlink (p : String) (ok : Bool) (l : List Event) (seen : Bool) :
    unlinkOnlyAfterClone (Event.unlinkCall p ok :: l) seen =
      (seen && unlinkOnlyAfterClone l seen) := rfl

theorem unlinkOnlyAfterClone_append (l1 l2 : List Event) (seen : Bool)
    (h : noUC l1 = true) :
    unlinkOnlyAfterClone (l1 ++ l2) seen = unlinkOnlyAfterClone l2 seen := by
  induction l1 generalizing seen with
  | nil => rfl
  | cons e t ih =>
    simp only [noUC, List.all_cons, Bool.and_eq_true] at h
    obtain ⟨he, ht⟩ := h
    have ht2 : noUC t = true := ht
    cases e with
    | ioctlCopychunk d s ok => simp [isCloneEv] at he
    | unlinkCall p ok => simp [isUnlinkEv] at he
    | openCall p f m r => rw [List.cons_append, uOAC_cons_open]; exact ih seen ht2
    | statCall p => rw [List.cons_append, uOAC_cons_stat]; exact ih seen ht2
    | closeCall fd ok => rw [List.cons_append, uOAC_cons_close]; exact ih seen ht2

theorem countP_unlink_zero (l : List Event) (h : noUC l = true) :
    l.countP isUnlinkEv = 0 := by
  induction l with
  | nil => rfl
  | cons e t ih =>
    simp only [noUC, List.all_cons, Bool.and_eq_true] at h
    obtain ⟨he, ht⟩ := h
    have ht2 : noUC t = true := ht
    have hu : isUnlinkEv e = false := by simpa using he.1
    simp [List.countP_cons, hu, ih ht2]

theorem countP_clone_zero (l : List Event) (h : noUC l = true) :
    l.countP isCloneEv = 0 := by
  induction l with
  | nil => rfl
  | cons e t ih =>
    simp only [noUC, List.all_cons, Bool.and_eq_true] at h
    obtain ⟨he, ht⟩ := h
    have ht2 : noUC t = true := ht
    have hu : isCloneEv e = false := by simpa using he.2
    simp [List.countP_cons, hu, ih ht2]

/-- C1: in every execution, `unlink(SRC)` is invoked at most once, and only
at a point of the trace strictly after a copychunk ioctl that returned
success.  In particular, on every path where opening, destination
resolution, filesystem validation or the clone fails, no unlink event
appears in the trace at all (such a trace holds no successful clone event,
so any unlink would falsify `unlinkOnlyAfterClone`). -/
theorem C1_unlink_only_after_successful_clone (env : Env) (args : List String) :
    (mainRun env args).evs.countP isUnlinkEv ≤ 1 ∧
    unlinkOnlyAfterClone (mainRun env args).evs false = true := by
  rcases args with _ | ⟨a, _ | ⟨b, _ | ⟨c, t⟩⟩⟩
  · simp [mainRun, unlinkOnlyAfterClone]
  · simp [mainRun, unlinkOnlyAfterClone]
  · rcases hs : env.openSrcRes with _ | srcFd
    · simp [mainRun, hs, unlinkOnlyAfterClone, isUnlinkEv, List.countP_cons]
    · have hn := noUC_openDest env a b
      have hn2 : noUC (Event.openCall a oRdwrFlags none (some srcFd) ::
          (open_dest env a b).evs) = true := by
        simp only [noUC, List.all_cons, Bool.and_eq_true]
        exact ⟨by simp [isUnlinkEv, isCloneEv], hn⟩
      rcases hod : (open_dest env a b).ret with _ | dstFd
      · simp only [mainRun, hs, hod]
        constructor
        · simp [List.countP_append, List.countP_cons, countP_unlink_zero _ hn,
            closeSrcPhase_evs, isUnlinkEv]
        · rw [unlinkOnlyAfterClone_append _ _ _ hn2, closeSrcPhase_evs, uOAC_cons_close]
          rfl
      · rcases hc : (check_is_cifs env.ftypeSrc env.ftypeDst).1 with _ | _
        · simp only [mainRun, hs, hod, hc, Bool.false_eq_true, if_false]
          constructor
          · simp [List.countP_append, List.countP_cons, countP_unlink_zero _ hn,
                closeBothPhase_evs, isUnlinkEv]
          · rw [unlinkOnlyAfterClone_append _ _ _ hn2, closeBothPhase_evs,
              uOAC_cons_close, uOAC_cons_close]
            rfl
        · by_cases hcl : env.cloneRet = 0
          · cases hu : env.unlinkOk
            all_goals
              simp only [mainRun, hs, hod, hc, if_true, clone_file_cifs, hcl,
                reduceIte, hu, Bool.false_eq_true, if_false]
              rw [List.append_assoc]
              constructor
            · simp [List.countP_append, List.countP_cons, countP_unlink_zero _ hn,
                closeBothPhase_evs, isUnlinkEv]
            · rw [unlinkOnlyAfterClone_append _ _ _ hn2, closeBothPhase_evs]
              simp [uOAC_cons_ioctl, uOAC_cons_unlink, uOAC_cons_close,
                unlinkOnlyAfterClone]
            · simp [List.countP_append, List.countP_cons, countP_unlink_zero _ hn,
                closeBothPhase_evs, isUnlinkEv]
            · rw [unlinkOnlyAfterClone_append _ _ _ hn2, closeBothPhase_evs]
              simp [uOAC_cons_ioctl, uOAC_cons_unlink, uOAC_cons_close,
                unlinkOnlyAfterClone]
          · simp only [mainRun, hs, hod, hc, if_true, clone_file_cifs, hcl,
              reduceIte, if_false]
            simp only [show ((-1 : Int) = 0) = False by simp, if_false]
            rw [List.append_assoc]
            constructor
            · simp [List.countP_append, List.countP_cons, countP_unlink_zero _ hn,
                closeBothPhase_evs, isUnlinkEv]
            · rw [unlinkOnlyAfterClone_append _ _ _ hn2, closeBothPhase_evs]
              simp [uOAC_cons_ioctl, uOAC_cons_close, unlinkOnlyAfterClone]
  · simp [mainRun, unlinkOnlyAfterClone]

/-- C2: when the destination exists and is not a directory, `open_dest`
returns no handle, emits exactly the fixed message
`refusing to overwrite <dst>`, performs no open/create on that path (its
only system call is the `stat`), the whole run exits with status 1, and
the copychunk ioctl is never issued. -/
theorem C2_refuse_to_overwrite_existing_file (env : Env) (src dst : String)
    (h : env.statDstRes = StatRes.ok false) :
    (open_dest env src dst).ret = none ∧
    (open_dest env src dst).msgs = [Msg.refusingToOverwrite dst] ∧
    (open_dest env src dst).evs = [Event.statCall dst] ∧
    (mainRun env [src, dst]).ret = 1 ∧
    (mainRun env [src, dst]).evs.countP isCloneEv = 0 := by
  have hod : open_dest env src dst =
      ⟨none, [Event.statCall dst], [Msg.refusingToOverwrite dst]⟩ := by
    simp [open_dest, h]
  refine ⟨by rw [hod], by rw [hod], by rw [hod], ?_, ?_⟩
  · rcases hs : env.openSrcRes with _ | srcFd
    · simp [mainRun, hs]
    · simp [mainRun, hs, hod, closeSrcPhase_ret]
  · rcases hs : env.openSrcRes with _ | srcFd
    · simp [mainRun, hs, List.countP_cons, isCloneEv]
    · simp [mainRun, hs, hod, closeSrcPhase_evs, List.countP_cons, List.countP_append,
        isCloneEv]

def envW2 : Env :=
  ⟨some 3, StatRes.ok false, none, none, some 0, some 0, 1, true, true, true, 5⟩

theorem C2_refuse_to_overwrite_existing_file_witness :
    (open_dest envW2 "a" "b").ret = none ∧
    (open_dest envW2 "a" "b").msgs = [Msg.refusingToOverwrite "b"] ∧
    (open_dest envW2 "a" "b").evs = [Event.statCall "b"] ∧
    (mainRun envW2 ["a", "b"]).ret = 1 ∧
    (mainRun envW2 ["a", "b"]).evs.countP isCloneEv = 0 :=
  C2_refuse_to_overwrite_existing_file envW2 "a" "b" rfl

def envW3 : Env :=
  ⟨some 3, StatRes.err Errno.enoent, some 4, none, some 0, some 0, 0, true, true, true, 5⟩

/-- C3 counterexample: a run whose source filesystem type (0) is not one of
the two accepted magic values does exit with status 1, but a destination
file IS created on disk first: `open_dest` runs before `check_is_cifs`
(main lines 168 and 174), so the trace holds a successful creating open of
the destination, contradicting the claim that no destination file is
created on disk. -/
theorem C3_counterexample_destination_created :
    envW3.ftypeSrc = some 0 ∧
    isCifsMagic 0 = false ∧
    (mainRun envW3 ["s", "d"]).ret = 1 ∧
    (mainRun envW3 ["s", "d"]).evs.countP isCreateEv = 1 ∧
    Event.openCall "d" oCreatWronlyFlags (some 0o644) (some 4) ∈
      (mainRun envW3 ["s", "d"]).evs := by
  refine ⟨rfl, rfl, ?_, ?_, ?_⟩ <;> decide

theorem check_false_of_bad (a b : Option Nat) (t : Nat)
    (hbad : isCifsMagic t = false) (h : a = some t ∨ b = some t) :
    (check_is_cifs a b).1 = false := by
  rcases h with h | h
  · simp [check_is_cifs, h, hbad]
  · rcases a with _ | ta
    · simp [check_is_cifs]
    · by_cases hta : isCifsMagic ta <;> simp [check_is_cifs, h, hbad, hta]

/-- C3 amended: for every run in which SRC or DST resides on a filesystem
whose type is not one of the two accepted magic values, the operation
exits with status 1, the clone is never attempted and SRC is never
unlinked; however a (possibly empty) destination file may already have
been created by destination resolution and is not removed. -/
theorem C3_amended_unsupported_fs_no_clone_no_unlink (env : Env) (src dst : String)
    (t : Nat) (hbad : isCifsMagic t = false)
    (h : env.ftypeSrc = some t ∨ env.ftypeDst = some t) :
    (mainRun env [src, dst]).ret = 1 ∧
    (mainRun env [src, dst]).evs.countP isCloneEv = 0 ∧
    (mainRun env [src, dst]).evs.countP isUnlinkEv = 0 := by
  have hc := check_false_of_bad env.ftypeSrc env.ftypeDst t hbad h
  rcases hs : env.openSrcRes with _ | srcFd
  · simp [mainRun, hs, List.countP_cons, isCloneEv, isUnlinkEv]
  · have hn := noUC_openDest env src dst
    rcases hod : (open_dest env src dst).ret with _ | dstFd
    · simp [mainRun, hs, hod, closeSrcPhase_ret, closeSrcPhase_evs, List.countP_cons,
        List.countP_append, isCloneEv, isUnlinkEv, countP_unlink_zero _ hn,
        countP_clone_zero _ hn]
    · simp [mainRun, hs, hod, hc, closeBothPhase_ret, closeBothPhase_evs, List.countP_cons,
        List.countP_append, isCloneEv, isUnlinkEv, countP_unlink_zero _ hn,
        countP_clone_zero _ hn]

theorem C3_amended_unsupported_fs_no_clone_no_unlink_witness :
    (mainRun envW3 ["s", "d"]).ret = 1 ∧
    (mainRun envW3 ["s", "d"]).evs.countP isCloneEv = 0 ∧
    (mainRun envW3 ["s", "d"]).evs.countP isUnlinkEv = 0 :=
  C3_amended_unsupported_fs_no_clone_no_unlink envW3 "s" "d" 0 rfl (Or.inl rfl)

def envW4 : Env :=
  ⟨some 3, StatRes.err Errno.enoent, some 4, none, some 0xFF534D42, some 0xFE534D42,
    0, false, true, true, 2⟩

/-- C4 (code bug): a run where the clone succeeds and `unlink(SRC)` fails.
The claim (and spec §4.4 / §6) says the process exits with code 1.  The
code never assigns `ret` on this path: line 184's failing `unlink` jumps
to `err_dst_close` without `ret = 1`, so the exit value is the
uninitialized `ret` (here modelled as 2, and both closes succeeding leave
it untouched).  The failure is reported and the destination is left in
place (the only unlink ever attempted names the source), but the exit
status is indeterminate rather than 1. -/
theorem C4_code_bug_unlink_failure_exit_value :
    Msg.unlinkFailed ∈ (mainRun envW4 ["s", "d"]).msgs ∧
    Event.unlinkCall "s" false ∈ (mainRun envW4 ["s", "d"]).evs ∧
    (mainRun envW4 ["s", "d"]).evs.countP isUnlinkEv = 1 ∧
    (mainRun envW4 ["s", "d"]).ret = 2 := by
  refine ⟨?_, ?_, ?_, ?_⟩ <;> decide

def envW5 : Env :=
  ⟨none, StatRes.ok false, none, none, none, none, 1, true, true, true, 0⟩

/-- C5 (code bug): with a single argument the program prints the usage
message and performs no filesystem operation (empty trace), as the claim
says; but the exit status is the uninitialized `ret` (line 151), not 1:
the `argc != 3` branch (lines 153-156) jumps to `err_out` without
assigning `ret`.  Modelling the indeterminate value as 0, the run "exits
with status 0". -/
theorem C5_code_bug_usage_exit_value :
    (mainRun envW5 ["only"]).msgs = [Msg.usage] ∧
    (mainRun envW5 ["only"]).evs = [] ∧
    (mainRun envW5 ["only"]).ret = 0 := by
  refine ⟨?_, ?_, ?_⟩ <;> decide

/-- C6: `check_is_cifs` returns true exactly when both fstatfs queries
succeed and both returned filesystem types are among the two magic values
0xFF534D42 and 0xFE534D42; on every false outcome the single message
emitted identifies which side (source or destination) failed and whether
the query itself failed or the type was wrong. -/
theorem C6_check_is_cifs_characterization (a b : Option Nat) :
    ((check_is_cifs a b).1 = true ↔
      (∃ ta, a = some ta ∧ isCifsMagic ta = true) ∧
      (∃ tb, b = some tb ∧ isCifsMagic tb = true)) ∧
    (∀ t, isCifsMagic t = true ↔ (t = 0xFF534D42 ∨ t = 0xFE534D42)) ∧
    (a = none → (check_is_cifs a b).2 = [Msg.statSrcFsFailed]) ∧
    (∀ t, a = some t → isCifsMagic t = false →
      (check_is_cifs a b).2 = [Msg.srcFsNotCifs]) ∧
    (∀ t, a = some t → isCifsMagic t = true → b = none →
      (check_is_cifs a b).2 = [Msg.statDstFsFailed]) ∧
    (∀ t u, a = some t → isCifsMagic t = true → b = some u → isCifsMagic u = false →
      (check_is_cifs a b).2 = [Msg.dstFsNotCifs]) ∧
    ((check_is_cifs a b).1 = true → (check_is_cifs a b).2 = []) := by
  refine ⟨?_, ?_, ?_, ?_, ?_, ?_, ?_⟩
  · rcases a with _ | ta
    · simp [check_is_cifs]
    · rcases b with _ | tb
      · by_cases hta : isCifsMagic ta <;> simp [check_is_cifs, hta]
      · by_cases hta : isCifsMagic ta <;> by_cases htb : isCifsMagic tb <;>
          simp [check_is_cifs, hta, htb]
  · intro t
    simp [isCifsMagic, CIFS_SUPER_MAGIC, SMB2_SUPER_MAGIC]
  · intro h; simp [check_is_cifs, h]
  · intro t h hbad; simp [check_is_cifs, h, hbad]
  · intro t h hok hb; simp [check_is_cifs, h, hok, hb]
  · intro t u h hok hb hbad; simp [check_is_cifs, h, hok, hb, hbad]
  · rcases a with _ | ta
    · simp [check_is_cifs]
    · rcases b with _ | tb
      · by_cases hta : isCifsMagic ta <;> simp [check_is_cifs, hta]
      · by_cases hta : isCifsMagic ta <;> by_cases htb : isCifsMagic tb <;>
          simp [check_is_cifs, hta, htb]

theorem C6_check_is_cifs_characterization_witness :
    (check_is_cifs (some 0xFF534D42) (some 0xFE534D42)).1 = true :=
  ((C6_check_is_cifs_characterization (some 0xFF534D42) (some 0xFE534D42)).1).mpr
    ⟨⟨0xFF534D42, rfl, by decide⟩, ⟨0xFE534D42, rfl, by decide⟩⟩

/-- C7: when `stat(dst)` fails with ENOENT, `open_dest` creates `dst` for
writing with `O_CREAT|O_WRONLY` and mode 0644 and returns the new handle;
when that create fails, or when `stat` fails with any other error, it
returns no handle and reports `failed to create <dst>` (line 124 covers
both the stat failure and the create failure with the system error
appended). -/
theorem C7_dest_created_when_absent (env : Env) (src dst : String) :
    (∀ fd, env.statDstRes = StatRes.err Errno.enoent → env.openDstRes = some fd →
      (open_dest env src dst).ret = some fd ∧
      (open_dest env src dst).evs =
        [Event.statCall dst,
         Event.openCall dst oCreatWronlyFlags (some 0o644) (some fd)] ∧
      (open_dest env src dst).msgs = []) ∧
    (env.statDstRes = StatRes.err Errno.enoent → env.openDstRes = none →
      (open_dest env src dst).ret = none ∧
      (open_dest env src dst).msgs = [Msg.failedToCreate dst]) ∧
    (env.statDstRes = StatRes.err Errno.eother →
      (open_dest env src dst).ret = none ∧
      (open_dest env src dst).evs = [Event.statCall dst] ∧
      (open_dest env src dst).msgs = [Msg.failedToCreate dst]) := by
  refine ⟨?_, ?_, ?_⟩
  · intro fd h1 h2; simp [open_dest, h1, h2]
  · intro h1 h2; simp [open_dest, h1, h2]
  · intro h1; simp [open_dest, h1]

def envW7a : Env :=
  ⟨some 3, StatRes.err Errno.enoent, some 4, none, none, none, 0, true, true, true, 0⟩

def envW7b : Env :=
  ⟨some 3, StatRes.err Errno.enoent, none, none, none, none, 0, true, true, true, 0⟩

def envW7c : Env :=
  ⟨some 3, StatRes.err Errno.eother, none, none, none, none, 0, true, true, true, 0⟩

theorem C7_dest_created_when_absent_witness :
    ((open_dest envW7a "a" "b").ret = some 4 ∧
     (open_dest envW7a "a" "b").evs =
       [Event.statCall "b",
        Event.openCall "b" oCreatWronlyFlags (some 0o644) (some 4)] ∧
     (open_dest envW7a "a" "b").msgs = []) ∧
    ((open_dest envW7b "a" "b").ret = none ∧
     (open_dest envW7b "a" "b").msgs = [Msg.failedToCreate "b"]) ∧
    ((open_dest envW7c "a" "b").ret = none ∧
     (open_dest envW7c "a" "b").evs = [Event.statCall "b"] ∧
     (open_dest envW7c "a" "b").msgs = [Msg.failedToCreate "b"]) :=
  ⟨(C7_dest_created_when_absent envW7a "a" "b").1 4 rfl rfl,
   (C7_dest_created_when_absent envW7b "a" "b").2.1 rfl rfl,
   (C7_dest_created_when_absent envW7c "a" "b").2.2 rfl⟩

/-- C8: when the destination exists and is a directory, `open_dest` opens
`dst ++ "/" ++ basename src` with `O_CREAT|O_WRONLY` and mode 0644 and
returns that handle; it returns no handle exactly when that open fails,
in which case it reports `failed to create` naming the combined path. -/
theorem C8_dest_directory_appends_basename (env : Env) (src dst : String) :
    (∀ fd, env.statDstRes = StatRes.ok true → env.openDstDirRes = some fd →
      (open_dest env src dst).ret = some fd ∧
      (open_dest env src dst).evs =
        [Event.statCall dst,
         Event.openCall (dst ++ "/" ++ basename src) oCreatWronlyFlags
           (some 0o644) (some fd)] ∧
      (open_dest env src dst).msgs = []) ∧
    (env.statDstRes = StatRes.ok true →
      ((open_dest env src dst).ret = none ↔ env.openDstDirRes = none)) ∧
    (env.statDstRes = StatRes.ok true → env.openDstDirRes = none →
      (open_dest env src dst).msgs =
        [Msg.failedToCreate (dst ++ "/" ++ basename src)]) := by
  refine ⟨?_, ?_, ?_⟩
  · intro fd h1 h2; simp [open_dest, h1, h2]
  · intro h1
    rcases h2 : env.openDstDirRes with _ | fd <;> simp [open_dest, h1, h2]
  · intro h1 h2; simp [open_dest, h1, h2]

def envW8 : Env :=
  ⟨some 3, StatRes.ok true, none, some 6, none, none, 0, true, true, true, 0⟩

theorem C8_dest_directory_appends_basename_witness :
    (open_dest envW8 "a" "b").ret = some 6 ∧
    (open_dest envW8 "a" "b").evs =
      [Event.statCall "b",
       Event.openCall ("b" ++ "/" ++ basename "a") oCreatWronlyFlags
         (some 0o644) (some 6)] ∧
    (open_dest envW8 "a" "b").msgs = [] :=
  (C8_dest_directory_appends_basename envW8 "a" "b").1 6 rfl rfl

def envW9 : Env :=
  ⟨some 3, StatRes.err Errno.enoent, some 4, none, some 0xFF534D42, some 0xFE534D42,
    0, false, true, true, 0⟩

/-- C9 (code bug): the close-failure half of the claim matches the code
(`err_dst_close`/`err_src_close` set `ret = 1`), but "exit status 0 only
when every step succeeds" does not: when the clone succeeds, `unlink`
fails and both closes succeed, the exit value is the uninitialized `ret`
(lines 151 and 184-187).  Modelled with indeterminate value 0, the run
exits 0 even though the unlink step failed. -/
theorem C9_code_bug_exit_zero_despite_unlink_failure :
    (mainRun envW9 ["s", "d"]).ret = 0 ∧
    Msg.unlinkFailed ∈ (mainRun envW9 ["s", "d"]).msgs ∧
    envW9.closeDstOk = true ∧
    envW9.closeSrcOk = true := by
  refine ⟨?_, ?_, ?_, ?_⟩ <;> decide

/-- C10: the source is opened with `O_RDWR` (line 161), so a source that
exists but is not writable fails at the source-open step: the run exits
with status 1 and its whole trace is the single failing source open — no
destination stat, open, create or any other destination access happens. -/
theorem C10_src_open_failure_touches_nothing (env : Env) (src dst : String)
    (h : env.openSrcRes = none) :
    mainRun env [src, dst] =
      ⟨1, [Event.openCall src oRdwrFlags none none], [Msg.failedToOpen src]⟩ ∧
    oRdwrFlags.rdwr = true ∧
    oRdwrFlags.wronly = false ∧
    oRdwrFlags.creat = false := by
  exact ⟨by simp [mainRun, h], rfl, rfl, rfl⟩

def envW10 : Env :=
  ⟨none, StatRes.ok false, none, none, none, none, 0, true, true, true, 9⟩

theorem C10_src_open_failure_touches_nothing_witness :
    mainRun envW10 ["a", "b"] =
      ⟨1, [Event.openCall "a" oRdwrFlags none none], [Msg.failedToOpen "a"]⟩ ∧
    oRdwrFlags.rdwr = true ∧
    oRdwrFlags.wronly = false ∧
    oRdwrFlags.creat = false :=
  C10_src_open_failure_touches_nothing envW10 "a" "b" rfl

end Smb2mv
